import Mathlib

/-!
Verification of the agent invocation layer of `spec-kitty`
(`src/specify_cli/orchestrator/agents/copilot.py`).

The Python source is shallowly embedded: strings are `String`/`List Char`,
Python's truthiness and text operations (`str.lower`, `str.strip`,
`str.split("\n")`, substring `in`) are modelled as executable Lean functions
on ASCII text, and the two `re.findall` patterns of
`_extract_files_from_text` are embedded as a specialised backtracking
matcher with Python's leftmost, greedy, non-overlapping semantics.
-/

set_option linter.unusedVariables false

namespace SpecKitty

/-- ASCII case folding, modelling Python `str.lower` on the ASCII range
(all vocabulary compared in the source is ASCII). -/
def pyLower (c : Char) : Char :=
  if 'A' ≤ c ∧ c ≤ 'Z' then Char.ofNat (c.toNat + 32) else c

/-- Python `\s` / `str.strip` whitespace on the ASCII range. -/
def isPySpace (c : Char) : Bool :=
  c == ' ' || c == '\t' || c == '\n' || c == '\r' || c == '\x0b' || c == '\x0c'

/-- Python regex `\w` on the ASCII range. -/
def isWordChar (c : Char) : Bool :=
  (decide ('a' ≤ c) && decide (c ≤ 'z')) ||
  (decide ('A' ≤ c) && decide (c ≤ 'Z')) ||
  (decide ('0' ≤ c) && decide (c ≤ '9')) || c == '_'

/-- The regex character class `[^\s'\"]` of the file patterns. -/
def isTokenChar (c : Char) : Bool :=
  !(isPySpace c) && c != '\'' && c != '"'

/-- Map `pyLower` over a char list, modelling `str.lower`. -/
def lowerL (cs : List Char) : List Char :=
  cs.map pyLower

/-- Python `str.strip()`: drop leading and trailing whitespace. -/
def pyStrip (cs : List Char) : List Char :=
  ((cs.dropWhile isPySpace).reverse.dropWhile isPySpace).reverse

/-- Python `str.split("\n")`: split on newline, keeping empty pieces. -/
def splitNl : List Char → List (List Char)
  | [] => [[]]
  | '\n' :: rest => [] :: splitNl rest
  | c :: rest =>
    match splitNl rest with
    | [] => [[c]]
    | l :: ls => (c :: l) :: ls

/-- Whether `needle` is an initial segment of `haystack` (exact chars). -/
def startsWithList : List Char → List Char → Bool
  | [], _ => true
  | _ :: _, [] => false
  | a :: as, b :: bs => a == b && startsWithList as bs

/-- Python substring test `needle in haystack` (both already lowered). -/
def hasSub (needle : List Char) : List Char → Bool
  | [] => startsWithList needle []
  | c :: rest => startsWithList needle (c :: rest) || hasSub needle rest

/-- The condition `"error" in line.lower() or "failed" in line.lower()`. -/
def lineHasErrKw (cs : List Char) : Bool :=
  hasSub "error".data (lowerL cs) || hasSub "failed".data (lowerL cs)

/-- The warning keyword test of the spec's warning-line extractor. -/
def lineHasWarnKw (cs : List Char) : Bool :=
  hasSub "warning".data (lowerL cs)

/-- Modelled from the spec: `BaseInvoker._extract_errors_from_output` lives in
`specify_cli/orchestrator/agents/base.py`, which is not among the provided
source files. Per spec section 4.2, the plain-text error-line extractor takes
every line containing "error" or "failed" (case-insensitive) as a candidate
short error description, trimmed, and the general (non-fallback) path applies
no cap. -/
def extract_errors_from_output (text : List Char) : List (List Char) :=
  ((splitNl text).filter lineHasErrKw).map pyStrip

/-- Modelled from the spec: `BaseInvoker._extract_warnings_from_output` lives
in `specify_cli/orchestrator/agents/base.py`, which is not among the provided
source files. Per spec section 4.2, the warning-line extractor reuses the same
line-scanning mechanism keyed on a warning vocabulary, with no cap. -/
def extract_warnings_from_output (text : List Char) : List (List Char) :=
  ((splitNl text).filter lineHasWarnKw).map pyStrip

/-- Match `\.\w+` at the head of `cs` (greedy `\w+`); on success return the
consumed characters and the rest. -/
def matchDotW (cs : List Char) : Option (List Char × List Char) :=
  match cs with
  | '.' :: rest =>
    let ws := rest.takeWhile isWordChar
    if ws.isEmpty then none else some ('.' :: ws, rest.drop ws.length)
  | _ => none

/-- Having already consumed one `[^\s'\"]` character, match the remainder
`[^\s'\"]*\.\w+` with Python's greedy backtracking: prefer consuming another
class character; on failure fall back to reading `\.\w+` here. -/
def matchTokenTail : List Char → Option (List Char × List Char)
  | [] => none
  | c :: rest =>
    if isTokenChar c then
      match matchTokenTail rest with
      | some (g, r) => some (c :: g, r)
      | none => matchDotW (c :: rest)
    else matchDotW (c :: rest)

/-- Match the capture group `([^\s'\"]+\.\w+)` at the head of `cs`. -/
def matchFileToken (cs : List Char) : Option (List Char × List Char) :=
  match cs with
  | [] => none
  | c :: rest =>
    if isTokenChar c then
      match matchTokenTail rest with
      | some (g, r) => some (c :: g, r)
      | none => none
    else none

/-- Match `['\"]?([^\s'\"]+\.\w+)`: greedy optional quote, with backtracking
to the unquoted branch when the quoted one fails. -/
def matchQuoteGroup (cs : List Char) : Option (List Char × List Char) :=
  match cs with
  | [] => none
  | c :: rest =>
    if c == '\'' || c == '"' then
      match matchFileToken rest with
      | some p => some p
      | none => matchFileToken (c :: rest)
    else matchFileToken (c :: rest)

/-- Consume the trailing `['\"]?` of the pattern. -/
def dropOptQuote : List Char → List Char
  | [] => []
  | c :: rest => if c == '\'' || c == '"' then rest else c :: rest

/-- Case-insensitive literal match: `lit` is given lowercased; on success
return the rest of the text. -/
def matchLit : List Char → List Char → Option (List Char)
  | [], cs => some cs
  | _ :: _, [] => none
  | a :: as, c :: cs => if pyLower c == a then matchLit as cs else none

/-- Match `\s+` greedily; at least one whitespace character is required. -/
def matchSpaces1 (cs : List Char) : Option (List Char) :=
  let sp := cs.takeWhile isPySpace
  if sp.isEmpty then none else some (cs.drop sp.length)

/-- Match one whole file pattern
`(?:v1|v2|...)\s+['\"]?([^\s'\"]+\.\w+)['\"]?` at the head of `cs`,
trying the verb alternatives in order; on success return the capture group
and the rest of the text after the full match. -/
def matchVerbPat (verbs : List (List Char)) (cs : List Char) :
    Option (List Char × List Char) :=
  verbs.foldr
    (fun v acc =>
      match (do
        let r1 ← matchLit v cs
        let r2 ← matchSpaces1 r1
        let (g, r3) ← matchQuoteGroup r2
        pure (g, dropOptQuote r3) : Option (List Char × List Char)) with
      | some p => some p
      | none => acc)
    none

/-- `re.findall` for one file pattern: scan left to right, take leftmost
non-overlapping matches, return the capture groups. Fuel bounds the scan;
every match consumes at least one character, so `cs.length` fuel is enough. -/
def findAllFuel (verbs : List (List Char)) : Nat → List Char → List (List Char)
  | 0, _ => []
  | _ + 1, [] => []
  | fuel + 1, c :: rest =>
    match matchVerbPat verbs (c :: rest) with
    | some (g, after) => g :: findAllFuel verbs fuel after
    | none => findAllFuel verbs fuel rest

/-- Verb alternatives of the first pattern of `_extract_files_from_text`. -/
def verbs1 : List (List Char) :=
  ["created".data, "modified".data, "updated".data, "wrote".data, "edited".data]

/-- Verb alternatives of the second pattern of `_extract_files_from_text`. -/
def verbs2 : List (List Char) :=
  ["writing to".data, "saving".data]

/-- `CopilotInvoker._extract_files_from_text`: run both `re.findall`
patterns over the text, concatenate the capture groups, and deduplicate
(`list(set(files))`; Python's set order is unspecified, so the embedding
fixes one dedup order — every claim about this value is order-independent). -/
def extract_files_from_text (text : String) : List String :=
  let files :=
    (findAllFuel verbs1 text.data.length text.data ++
     findAllFuel verbs2 text.data.length text.data).map
      (fun g => String.mk g)
  files.dedup

/-- Modelled from the spec: the `InvocationResult` record is declared in
`specify_cli/orchestrator/agents/base.py`, which is not among the provided
source files; its fields are exactly those of spec section 3 and those the
source constructs. `duration_seconds` is a Python float carried through
unchanged, embedded as a rational. -/
structure InvocationResult where
  success : Bool
  exit_code : Int
  stdout : String
  stderr : String
  duration_seconds : Rat
  files_modified : List String
  commits_made : List String
  errors : List String
  warnings : List String

/-- The stdout error-line comprehension of `parse_output`:
`[line.strip() for line in stdout.split("\n") if "error" in line.lower() or
"failed" in line.lower()]`. -/
def errorLinesOf (stdout : String) : List String :=
  (((splitNl stdout.data).filter lineHasErrKw).map pyStrip).map
    (fun l => String.mk l)

/-- `CopilotInvoker.parse_output`, embedded statement by statement. -/
def parse_output (stdout stderr : String) (exit_code : Int)
    (duration_seconds : Rat) : InvocationResult :=
  let success := exit_code == 0
  let files_modified := extract_files_from_text stdout
  let commits_made : List String := []
  let stderrTruthy := !(pyStrip stderr.data).isEmpty
  let errors1 : List String :=
    if stderrTruthy && !success then
      (extract_errors_from_output stderr.data).map (fun l => String.mk l)
    else []
  let warnings1 : List String :=
    if stderrTruthy then
      (extract_warnings_from_output stderr.data).map (fun l => String.mk l)
    else []
  let errors2 : List String :=
    if !success && errors1.isEmpty then
      if hasSub "error".data (lowerL stdout.data) ||
         hasSub "failed".data (lowerL stdout.data) then
        errors1 ++ (errorLinesOf stdout).take 3
      else errors1
    else errors1
  { success := success
    exit_code := exit_code
    stdout := stdout
    stderr := stderr
    duration_seconds := duration_seconds
    files_modified := files_modified
    commits_made := commits_made
    errors := errors2
    warnings := warnings1 }

/-- `CopilotInvoker.build_command`: a fixed five-token argument vector
around the prompt; `working_dir` and `role` are accepted but unused. -/
def build_command (prompt : String) (working_dir : String) (role : String) :
    List String :=
  ["copilot", "-p", prompt, "--yolo", "-s"]

/-! Helper lemmas shared by several claims. -/

/-- Every entry of `errorLinesOf stdout` is the stripped form of a line of
`stdout.split("\n")` that contains "error" or "failed" case-insensitively. -/
theorem mem_errorLinesOf {stdout e : String} (he : e ∈ errorLinesOf stdout) :
    ∃ l ∈ splitNl stdout.data, lineHasErrKw l = true ∧ e = String.mk (pyStrip l) := by
  unfold errorLinesOf at he
  simp only [List.mem_map] at he
  obtain ⟨l', hl', rfl⟩ := he
  obtain ⟨l, hl, rfl⟩ := hl'
  rw [List.mem_filter] at hl
  exact ⟨l, hl.1, hl.2, rfl⟩

/-- With empty stderr and non-zero exit code, the `errors` of the result are
exactly the (capped) stdout fallback harvest. -/
theorem errors_of_empty_stderr (stdout : String) (exit_code : Int) (d : Rat)
    (hec : (exit_code == 0) = false) :
    (parse_output stdout "" exit_code d).errors =
      if hasSub "error".data (lowerL stdout.data) ||
         hasSub "failed".data (lowerL stdout.data) then
        (errorLinesOf stdout).take 3
      else [] := by
  have hshape : (parse_output stdout "" exit_code d).errors =
      if !(exit_code == 0) && true then
        if hasSub "error".data (lowerL stdout.data) ||
           hasSub "failed".data (lowerL stdout.data) then
          [] ++ (errorLinesOf stdout).take 3
        else []
      else [] := rfl
  rw [hshape, hec]
  simp

/-! Claim theorems. -/

/-- Claim C1: for every input, the result of `parse_output` has `success`
equal to `exit_code == 0`; in particular a non-zero exit code always yields
`success = false`, and `success` is independent of stdout/stderr content. -/
theorem C1_success_is_exit_code_zero
    (stdout stderr stdout' stderr' : String) (exit_code : Int) (d d' : Rat) :
    (parse_output stdout stderr exit_code d).success = (exit_code == 0) ∧
    (parse_output stdout stderr exit_code d).success =
      (parse_output stdout' stderr' exit_code d').success :=
  ⟨rfl, rfl⟩

/-- Claim C2, counterexample: with stdout `"error"`, empty stderr and exit
code 0, the failure indicator is present in stdout, yet `warnings` is empty —
`parse_output` does not surface stdout indicators into `warnings` as the
claim states. -/
theorem C2_counterexample_warnings_not_surfaced :
    hasSub "error".data (lowerL "error".data) = true ∧
    (parse_output "error" "" 0 0).success = true ∧
    (parse_output "error" "" 0 0).warnings = [] := by
  exact ⟨by decide, rfl, rfl⟩

/-- Claim C2, amended: on exit code 0, `success` stays true and `errors`
stays empty no matter what stdout contains, but stdout failure indicators are
not surfaced into `warnings` either: `warnings` derives solely from stderr
and is empty whenever stderr strips to empty. -/
theorem C2_amended_exit_zero_behavior (stdout stderr : String) (d : Rat) :
    (parse_output stdout stderr 0 d).success = true ∧
    (parse_output stdout stderr 0 d).errors = [] ∧
    (pyStrip stderr.data = [] → (parse_output stdout stderr 0 d).warnings = []) := by
  refine ⟨rfl, ?_, ?_⟩
  · have hshape : (parse_output stdout stderr 0 d).errors =
        if !(pyStrip stderr.data).isEmpty && false then
          (extract_errors_from_output stderr.data).map (fun l => String.mk l)
        else [] := rfl
    rw [hshape]
    simp
  · intro h
    have hshape : (parse_output stdout stderr 0 d).warnings =
        if !(pyStrip stderr.data).isEmpty then
          (extract_warnings_from_output stderr.data).map (fun l => String.mk l)
        else [] := rfl
    rw [hshape, h]
    simp

/-- Claim C2, witness for the amended theorem at stdout `"error"`. -/
theorem C2_amended_witness :
    (parse_output "error" "" 0 0).success = true ∧
    (parse_output "error" "" 0 0).errors = [] ∧
    (parse_output "error" "" 0 0).warnings = [] := by
  have h := C2_amended_exit_zero_behavior "error" "" 0
  exact ⟨h.1, h.2.1, h.2.2 (by decide)⟩

/-- Claim C3, counterexample: on Scenario B's input the `errors` list does
not have 2 entries — `"Something went wrong"` contains neither "error" nor
"failed", so only one line is harvested. -/
theorem C3_counterexample_not_two_errors :
    ¬ ((parse_output "Something went wrong\nFailed to compile\n" "" 1 0).errors.length
        = 2) := by
  decide

/-- Claim C3, amended: on Scenario B's input, `success` is false and `errors`
has exactly one entry, the stripped line `"Failed to compile"` — the only
stdout line containing a failure keyword. -/
theorem C3_amended_scenario_b :
    (parse_output "Something went wrong\nFailed to compile\n" "" 1 0).success
      = false ∧
    (parse_output "Something went wrong\nFailed to compile\n" "" 1 0).errors
      = ["Failed to compile"] := by
  exact ⟨rfl, by decide⟩

/-- Claim C4, counterexample: with exit code 1, non-empty stderr
`"diagnostic output"` (which contains no error/failed line, so the stderr
harvest is empty) and stdout `"error: boom"`, the result's `errors` comes
from stdout — stdout is scanned even though stderr is non-empty. -/
theorem C4_counterexample_stdout_scanned :
    pyStrip ("diagnostic output".data) ≠ [] ∧
    extract_errors_from_output "diagnostic output".data = [] ∧
    (parse_output "error: boom" "diagnostic output" 1 0).errors
      = ["error: boom"] := by
  exact ⟨by decide, by decide, by decide⟩

/-- Claim C4, amended: with non-zero exit code and non-empty stderr, `errors`
is the stderr harvest whenever that harvest is non-empty; only when stderr
yields no error line does the code fall back to scanning stdout. -/
theorem C4_amended_errors_from_stderr
    (stdout stderr : String) (exit_code : Int) (d : Rat)
    (hec : exit_code ≠ 0) (hse : pyStrip stderr.data ≠ [])
    (hne : extract_errors_from_output stderr.data ≠ []) :
    (parse_output stdout stderr exit_code d).errors =
      (extract_errors_from_output stderr.data).map (fun l => String.mk l) := by
  have h2 : (exit_code == 0) = false := by simpa using hec
  have h1 : (pyStrip stderr.data).isEmpty = false := by
    simpa [List.isEmpty_iff] using hse
  have hshape : (parse_output stdout stderr exit_code d).errors =
      (if !(exit_code == 0) &&
          (if !(pyStrip stderr.data).isEmpty && !(exit_code == 0) then
            (extract_errors_from_output stderr.data).map (fun l => String.mk l)
          else []).isEmpty then
        if hasSub "error".data (lowerL stdout.data) ||
           hasSub "failed".data (lowerL stdout.data) then
          (if !(pyStrip stderr.data).isEmpty && !(exit_code == 0) then
            (extract_errors_from_output stderr.data).map (fun l => String.mk l)
          else []) ++ (errorLinesOf stdout).take 3
        else
          (if !(pyStrip stderr.data).isEmpty && !(exit_code == 0) then
            (extract_errors_from_output stderr.data).map (fun l => String.mk l)
          else [])
      else
        (if !(pyStrip stderr.data).isEmpty && !(exit_code == 0) then
          (extract_errors_from_output stderr.data).map (fun l => String.mk l)
        else [])) := rfl
  rw [hshape, h1, h2]
  simp [List.isEmpty_iff, hne]

/-- Claim C4, witness for the amended theorem. -/
theorem C4_amended_witness :
    (parse_output "failed here" "error: x" 1 0).errors =
      (extract_errors_from_output "error: x".data).map (fun l => String.mk l) :=
  C4_amended_errors_from_stderr "failed here" "error: x" 1 0
    (by decide) (by decide) (by decide)

/-- Claim C5: with non-zero exit code and empty stderr, `errors` has at most
3 entries, each the stripped form of a stdout line containing "error" or
"failed" case-insensitively. -/
theorem C5_fallback_errors_capped_from_stdout
    (stdout : String) (exit_code : Int) (d : Rat) (hec : exit_code ≠ 0) :
    (parse_output stdout "" exit_code d).errors.length ≤ 3 ∧
    ∀ e ∈ (parse_output stdout "" exit_code d).errors,
      ∃ l ∈ splitNl stdout.data, lineHasErrKw l = true ∧
        e = String.mk (pyStrip l) := by
  have h2 : (exit_code == 0) = false := by simpa using hec
  rw [errors_of_empty_stderr stdout exit_code d h2]
  by_cases hkw : hasSub "error".data (lowerL stdout.data) ||
      hasSub "failed".data (lowerL stdout.data)
  · rw [if_pos hkw]
    constructor
    · rw [List.length_take]
      exact min_le_left _ _
    · intro e he
      exact mem_errorLinesOf (List.mem_of_mem_take he)
  · rw [if_neg hkw]
    exact ⟨by simp, by simp⟩

/-- Claim C5, witness at stdout `"Failed to compile"`, exit code 1. -/
theorem C5_witness :
    (parse_output "Failed to compile" "" 1 0).errors.length ≤ 3 ∧
    ∀ e ∈ (parse_output "Failed to compile" "" 1 0).errors,
      ∃ l ∈ splitNl "Failed to compile".data, lineHasErrKw l = true ∧
        e = String.mk (pyStrip l) :=
  C5_fallback_errors_capped_from_stdout "Failed to compile" 1 0 (by decide)

/-- Claim C6: `parse_output` is a total function — every input, however
adversarial, yields an `InvocationResult` (every Python operation the body
uses is total, so the embedding has no error case), and the raw fields are
carried through unchanged. -/
theorem C6_parse_output_total (stdout stderr : String) (exit_code : Int)
    (d : Rat) :
    ∃ r : InvocationResult, parse_output stdout stderr exit_code d = r ∧
      r.stdout = stdout ∧ r.stderr = stderr ∧ r.exit_code = exit_code ∧
      r.duration_seconds = d :=
  ⟨parse_output stdout stderr exit_code d, rfl, rfl, rfl, rfl, rfl⟩

/-- Claim C7: the file-path extractor never returns duplicates, and hence
neither does the `files_modified` field of any `parse_output` result. -/
theorem C7_files_modified_nodup (text : String) :
    (extract_files_from_text text).Nodup ∧
    ∀ (stdout stderr : String) (exit_code : Int) (d : Rat),
      (parse_output stdout stderr exit_code d).files_modified.Nodup :=
  ⟨List.nodup_dedup _, fun _ _ _ _ => List.nodup_dedup _⟩

/-- Claim C8: the verb "creating" is not in the recognized verb set, so the
extractor yields nothing on `"creating file notes.txt"`, and the
`files_modified` of the corresponding result is empty. -/
theorem C8_creating_not_recognized :
    extract_files_from_text "creating file notes.txt" = [] ∧
    (parse_output "creating file notes.txt" "" 0 0).files_modified = [] := by
  exact ⟨by decide, by decide⟩

/-- Claim C9: `build_command` returns exactly the five-token vector
`["copilot", "-p", prompt, "--yolo", "-s"]` and is independent of
`working_dir` and `role`. -/
theorem C9_build_command_fixed_vector
    (prompt working_dir role working_dir' role' : String) :
    build_command prompt working_dir role =
      ["copilot", "-p", prompt, "--yolo", "-s"] ∧
    build_command prompt working_dir role =
      build_command prompt working_dir' role' :=
  ⟨rfl, rfl⟩

/-- Claim C10: `commits_made` is always the empty list, whatever the output
text contains. -/
theorem C10_commits_always_empty (stdout stderr : String) (exit_code : Int)
    (d : Rat) :
    (parse_output stdout stderr exit_code d).commits_made = [] :=
  rfl

end SpecKitty
